import Mathlib

/-!
Verification development for the Local Food Wastage Management System
(`app.py`): a shallow embedding of its data model, data loader, report
catalog and mutation operations, with theorems settling the spec claims.

Tables are embedded as Lean lists of records; pandas operations are
embedded as list operations:
  - `value_counts`  -> for each distinct value, the length of the filter;
  - `groupby(k)[v].sum()` -> for each distinct key, the sum over the filter;
  - `merge(..., on=k)` (inner join) -> `flatMap` with a filter on the key;
  - `isin` -> list membership;
  - `drop_duplicates` -> `dedup`;
  - `pd.to_numeric(errors = coerce).fillna(0)` -> integer parse with
    fallback 0 (`coerceNum`);
  - `pd.to_datetime(errors = coerce)` -> date-string parse returning
    `Option` (`parseDate`), `none` being the NaT marker.
Machine integers are embedded as `Int` (SQLite integers are unbounded for
practical table sizes; no wrap-around occurs in the source).
-/

namespace FoodWastage

/-- A calendar date as (year, month, day). -/
abbrev Date := Nat × Nat × Nat

/-- A raw database cell as read from SQLite before pandas coercion:
an integer, a text value, or NULL. -/
inductive DBCell where
  | intVal (n : Int)
  | strVal (s : String)
  | nullVal
deriving DecidableEq, Repr

/-- Row of the `providers` table after loading (`Provider_ID` coerced to
int, the rest text).  The source column `Type` is spelled `type` here
because `Type` is reserved in Lean. -/
structure Provider where
  Provider_ID : Int
  Name : String
  type : String
  Address : String
  City : String
  Contact : String
deriving DecidableEq, Repr

/-- Row of the `receivers` table after loading. -/
structure Receiver where
  Receiver_ID : Int
  Name : String
  type : String
  City : String
  Contact : String
deriving DecidableEq, Repr

/-- Row of the `food_listings` table after loading: identifier and
quantity columns coerced to int, `Expiry_Date` parsed to a date or the
null marker. -/
structure FoodListing where
  Food_ID : Int
  Food_Name : String
  Quantity : Int
  Expiry_Date : Option Date
  Provider_ID : Int
  Provider_Type : String
  Location : String
  Food_Type : String
  Meal_Type : String
deriving DecidableEq, Repr

/-- Row of the `claims` table after loading.  The loader coerces
`Food_ID` and `Receiver_ID` and parses `Timestamp`; `Claim_ID` is left
untouched (the source never coerces it), so it stays a raw cell. -/
structure Claim where
  Claim_ID : DBCell
  Food_ID : Int
  Receiver_ID : Int
  Status : String
  Timestamp : Option Date
deriving DecidableEq, Repr

/-- The in-memory snapshot of all four tables produced by one load. -/
structure Snapshot where
  food_listings : List FoodListing
  providers : List Provider
  receivers : List Receiver
  claims : List Claim
deriving DecidableEq, Repr

/-! ## Data Loader (`load_data_from_db`) -/

/-- Value of one decimal digit character, `none` for a non-digit. -/
def digitVal (c : Char) : Option Nat :=
  if c = '0' then some 0 else if c = '1' then some 1 else if c = '2' then some 2
  else if c = '3' then some 3 else if c = '4' then some 4 else if c = '5' then some 5
  else if c = '6' then some 6 else if c = '7' then some 7 else if c = '8' then some 8
  else if c = '9' then some 9 else none

/-- Accumulator loop of the decimal numeral reader. -/
def parseNatGo : List Char → Nat → Option Nat
  | [], acc => some acc
  | c :: cs, acc =>
    match digitVal c with
    | some d => parseNatGo cs (10 * acc + d)
    | none => none

/-- Read a non-empty all-digit character list as a natural number. -/
def parseNatChars (cs : List Char) : Option Nat :=
  if cs.isEmpty then none else parseNatGo cs 0

/-- Read an optionally negated decimal numeral, `none` on anything
else — the embedding of the numeric parser behind `pd.to_numeric`. -/
def parseIntChars (cs : List Char) : Option Int :=
  match cs with
  | '-' :: rest => (parseNatChars rest).map (fun n => -(n : Int))
  | _ => (parseNatChars cs).map (fun n => (n : Int))

/-- Split a character list on the dash separator. -/
def splitDash : List Char → List (List Char)
  | [] => [[]]
  | c :: cs =>
    if c = '-' then [] :: splitDash cs
    else
      match splitDash cs with
      | [] => [[c]]
      | g :: gs => (c :: g) :: gs

/-- `pd.to_numeric(errors = coerce)` on one cell: an integer passes
through, text is parsed as an integer numeral, anything unparseable or
NULL becomes NaN (`none`). -/
def toNumericCoerce : DBCell → Option Int
  | .intVal n => some n
  | .strVal s => parseIntChars s.data
  | .nullVal => none

/-- `pd.to_numeric(errors = coerce).fillna(0).astype(int)` on one cell:
coercion failures become 0. -/
def coerceNum (c : DBCell) : Int :=
  (toNumericCoerce c).getD 0

/-- `pd.to_datetime(errors = coerce)` on one text cell, for dates in the
ISO form YYYY-MM-DD the application writes; anything else parses to the
null marker NaT (`none`). -/
def parseDate (s : String) : Option Date :=
  match splitDash s.data with
  | [y, m, d] =>
    match parseNatChars y, parseNatChars m, parseNatChars d with
    | some yn, some mn, some dn =>
      if 1 ≤ mn ∧ mn ≤ 12 ∧ 1 ≤ dn ∧ dn ≤ 31 then some (yn, mn, dn) else none
    | _, _, _ => none
  | _ => none

/-- Raw `food_listings` row as stored (identifier and quantity cells
untyped, dates as text). -/
structure RawFoodRow where
  Food_ID : DBCell
  Food_Name : String
  Quantity : DBCell
  Expiry_Date : String
  Provider_ID : DBCell
  Provider_Type : String
  Location : String
  Food_Type : String
  Meal_Type : String
deriving DecidableEq, Repr

/-- Raw `claims` row as stored. -/
structure RawClaimRow where
  Claim_ID : DBCell
  Food_ID : DBCell
  Receiver_ID : DBCell
  Status : String
  Timestamp : String
deriving DecidableEq, Repr

/-- Raw `providers` row as stored. -/
structure RawProviderRow where
  Provider_ID : DBCell
  Name : String
  type : String
  Address : String
  City : String
  Contact : String
deriving DecidableEq, Repr

/-- Raw `receivers` row as stored. -/
structure RawReceiverRow where
  Receiver_ID : DBCell
  Name : String
  type : String
  City : String
  Contact : String
deriving DecidableEq, Repr

/-- Loader action on one `food_listings` row: coerce `Food_ID`,
`Provider_ID`, `Quantity`, parse `Expiry_Date`, keep text columns. -/
def loadFoodRow (r : RawFoodRow) : FoodListing :=
  { Food_ID := coerceNum r.Food_ID
    Food_Name := r.Food_Name
    Quantity := coerceNum r.Quantity
    Expiry_Date := parseDate r.Expiry_Date
    Provider_ID := coerceNum r.Provider_ID
    Provider_Type := r.Provider_Type
    Location := r.Location
    Food_Type := r.Food_Type
    Meal_Type := r.Meal_Type }

/-- Loader action on one `claims` row: coerce `Food_ID` and
`Receiver_ID`, parse `Timestamp`; `Claim_ID` passes through raw. -/
def loadClaimRow (r : RawClaimRow) : Claim :=
  { Claim_ID := r.Claim_ID
    Food_ID := coerceNum r.Food_ID
    Receiver_ID := coerceNum r.Receiver_ID
    Status := r.Status
    Timestamp := parseDate r.Timestamp }

/-- Loader action on one `providers` row: coerce `Provider_ID`. -/
def loadProviderRow (r : RawProviderRow) : Provider :=
  { Provider_ID := coerceNum r.Provider_ID
    Name := r.Name
    type := r.type
    Address := r.Address
    City := r.City
    Contact := r.Contact }

/-- Loader action on one `receivers` row: coerce `Receiver_ID`. -/
def loadReceiverRow (r : RawReceiverRow) : Receiver :=
  { Receiver_ID := coerceNum r.Receiver_ID
    Name := r.Name
    type := r.type
    City := r.City
    Contact := r.Contact }

/-- `load_data_from_db` restricted to `food_listings`: every stored row
yields exactly one loaded record, never an error. -/
def load_food_listings (rows : List RawFoodRow) : List FoodListing :=
  rows.map loadFoodRow

/-- `load_data_from_db` restricted to `claims`. -/
def load_claims (rows : List RawClaimRow) : List Claim :=
  rows.map loadClaimRow

/-- `load_data_from_db` restricted to `providers`. -/
def load_providers (rows : List RawProviderRow) : List Provider :=
  rows.map loadProviderRow

/-- `load_data_from_db` restricted to `receivers`. -/
def load_receivers (rows : List RawReceiverRow) : List Receiver :=
  rows.map loadReceiverRow

/-! ## Generic relational operations shared by the reports -/

/-- Pandas `value_counts` on a column: one entry per distinct value,
paired with its number of occurrences.  (The descending display order of
`value_counts` is applied separately where the source sorts.) -/
def valueCounts {α : Type} [DecidableEq α] (l : List α) : List (α × Nat) :=
  l.dedup.map (fun a => (a, (l.filter (fun x => decide (x = a))).length))

/-- Pandas `groupby(key)[val].sum()`: one entry per distinct key, paired
with the sum of `val` over the rows having that key. -/
def groupbySum {α κ : Type} [DecidableEq κ] (key : α → κ) (val : α → Int)
    (rows : List α) : List (κ × Int) :=
  (rows.map key).dedup.map
    (fun k => (k, ((rows.filter (fun r => decide (key r = k))).map val).sum))

/-! ## Report Engine -/

/-- Key Insights section 15, step 1: the distinct `Food_ID` values
occurring in the claims table (`df_claims.Food_ID.unique()`). -/
def claimed_food_ids (claims : List Claim) : List Int :=
  (claims.map (fun c => c.Food_ID)).dedup

/-- Key Insights section 15, step 2: listings whose `Food_ID` is absent
from the claimed-id set (`~isin(claimed_food_ids)`). -/
def unclaimed_listings (listings : List FoodListing) (claims : List Claim) :
    List FoodListing :=
  listings.filter (fun l => decide (l.Food_ID ∉ claimed_food_ids claims))

/-- Key Insights section 15, step 3: inner-merge the unclaimed listings
with `providers` on `Provider_ID`, projected to the displayed columns
(Provider_ID, Name, Type, City). -/
def providers_with_unclaimed_food (listings : List FoodListing)
    (claims : List Claim) (providers : List Provider) :
    List (Int × String × String × String) :=
  (unclaimed_listings listings claims).flatMap (fun l =>
    (providers.filter (fun p => decide (p.Provider_ID = l.Provider_ID))).map
      (fun p => (p.Provider_ID, p.Name, p.type, p.City)))

/-- Key Insights section 15, step 4: `drop_duplicates` over the
projected provider columns — the displayed report. -/
def unique_providers_with_unclaimed (listings : List FoodListing)
    (claims : List Claim) (providers : List Provider) :
    List (Int × String × String × String) :=
  (providers_with_unclaimed_food listings claims providers).dedup

/-- Key Insights section 2, step 1: inner-merge `food_listings` with
`providers` on `Provider_ID` (each pair of matching rows). -/
def provider_type_contribution (listings : List FoodListing)
    (providers : List Provider) : List (FoodListing × Provider) :=
  listings.flatMap (fun l =>
    (providers.filter (fun p => decide (p.Provider_ID = l.Provider_ID))).map
      (fun p => (l, p)))

/-- Key Insights section 2, step 2: group the merged table by provider
`Type` and sum `Quantity` — the displayed report. -/
def top_provider_types (listings : List FoodListing)
    (providers : List Provider) : List (String × Int) :=
  groupbySum (fun r => r.2.type) (fun r => r.1.Quantity)
    (provider_type_contribution listings providers)

/-- Key Insights section 13, group-by stage:
`df_food_listings.groupby(Provider_ID)[Quantity].sum()`. -/
def provider_donated_qty_groups (listings : List FoodListing) :
    List (Int × Int) :=
  groupbySum (fun l => l.Provider_ID) (fun l => l.Quantity) listings

/-- Key Insights section 13, displayed report: the grouped sums
inner-merged with `providers` on `Provider_ID`. -/
def provider_donated_qty (listings : List FoodListing)
    (providers : List Provider) : List (Int × Int × String × String) :=
  (provider_donated_qty_groups listings).flatMap (fun g =>
    (providers.filter (fun p => decide (p.Provider_ID = g.1))).map
      (fun p => (g.1, g.2, p.Name, p.type)))

/-- Key Insights section 6, step 1: `value_counts` of the `Location`
column of `food_listings`. -/
def city_listings_count (listings : List FoodListing) :
    List (String × Nat) :=
  valueCounts (listings.map (fun l => l.Location))

/-- Key Insights section 6, step 2: sort descending by count and take
row 0 (`.iloc[0]`).  On an empty table row 0 does not exist — the
source raises an unhandled IndexError there; the embedding returns
`none` for that failure. -/
def city_with_most_listings (listings : List FoodListing) :
    Option (String × Nat) :=
  ((city_listings_count listings).mergeSort
    (fun a b => decide (b.2 ≤ a.2))).head?

/-- Key Insights section 10: `value_counts(normalize=True) * 100` of the
claims `Status` column, with exact rational arithmetic standing in for
the source's floating point. -/
def claim_status_percentage (claims : List Claim) : List (String × ℚ) :=
  (valueCounts (claims.map (fun c => c.Status))).map
    (fun sc => (sc.1, (sc.2 : ℚ) / (claims.length : ℚ) * 100))

/-- Key Insights section 20: total listed quantity
(`df_food_listings.Quantity.sum()`). -/
def total_listed_qty (listings : List FoodListing) : Int :=
  (listings.map (fun l => l.Quantity)).sum

/-- Key Insights section 20, step 1: inner-merge `claims` with
`food_listings[[Food_ID, Quantity]]` on `Food_ID` — one row per
(claim, matching listing) pair, carrying the listing's Quantity. -/
def claims_with_food_qty_for_total (claims : List Claim)
    (listings : List FoodListing) : List (Claim × Int) :=
  claims.flatMap (fun c =>
    (listings.filter (fun l => decide (l.Food_ID = c.Food_ID))).map
      (fun l => (c, l.Quantity)))

/-- Key Insights section 20, step 2: the reported total claimed
quantity — the sum of the merged table's Quantity column. -/
def total_claimed_qty (claims : List Claim) (listings : List FoodListing) :
    Int :=
  ((claims_with_food_qty_for_total claims listings).map Prod.snd).sum

/-- Key Insights section 23, step 1: `value_counts` of the
`Provider_ID` column of `food_listings`. -/
def provider_listings_count (listings : List FoodListing) :
    List (Int × Nat) :=
  valueCounts (listings.map (fun l => l.Provider_ID))

/-- Key Insights section 23, steps 2-3: keep providers whose listing
count is `>= min_listings_input` (the source filter, despite the
section's `More than X` title) and inner-merge with `providers` on
`Provider_ID`.  The widget enforces `min_listings_input >= 1`. -/
def highly_active_providers (listings : List FoodListing)
    (providers : List Provider) (min_listings_input : Nat) :
    List (Provider × Nat) :=
  ((provider_listings_count listings).filter
      (fun pc => decide (min_listings_input ≤ pc.2))).flatMap (fun pc =>
    (providers.filter (fun p => decide (p.Provider_ID = pc.1))).map
      (fun p => (p, pc.2)))

/-- Number of listings a given `Provider_ID` has — the quantity the
section-23 report thresholds on. -/
def num_listings_of (listings : List FoodListing) (pid : Int) : Nat :=
  (listings.filter (fun l => decide (l.Provider_ID = pid))).length

/-! ## Mutation Gateway -/

/-- `SELECT MAX(Food_ID) FROM food_listings`: `none` is SQL NULL on an
empty table. -/
def sqlMaxFoodID (listings : List FoodListing) : Option Int :=
  (listings.map (fun l => l.Food_ID)).max?

/-- Python's `max_food_id or 0` on the fetched MAX: NULL (None) and 0
are both falsy and yield 0. -/
def pyOrZero : Option Int → Int
  | none => 0
  | some n => if n = 0 then 0 else n

/-- The `Add New Food Listing` form's id assignment:
`new_food_id = (max_food_id or 0) + 1`. -/
def new_food_id (listings : List FoodListing) : Int :=
  pyOrZero (sqlMaxFoodID listings) + 1

/-- Number of claims rows referencing a `Food_ID`
(`SELECT COUNT(*) FROM claims WHERE Food_ID = ?`). -/
def claims_count_for (claims : List Claim) (fid : Int) : Nat :=
  (claims.filter (fun c => decide (c.Food_ID = fid))).length

/-- Outcome of the delete branch: the resulting `food_listings` table,
the rejection reason (the dependent-claims count) when refused, and
whether the loader cache was invalidated. -/
structure DeleteResult where
  food_listings : List FoodListing
  rejected : Option Nat
  cacheCleared : Bool
deriving DecidableEq, Repr

/-- The `Manage Food Listings` delete branch: count dependent claims;
if positive, warn with the count and write nothing; otherwise run
`DELETE FROM food_listings WHERE Food_ID = ?` and clear the loader
cache. -/
def delete_food_listing (claims : List Claim) (listings : List FoodListing)
    (fid : Int) : DeleteResult :=
  if 0 < claims_count_for claims fid then
    { food_listings := listings
      rejected := some (claims_count_for claims fid)
      cacheCleared := false }
  else
    { food_listings := listings.filter (fun l => decide (l.Food_ID ≠ fid))
      rejected := none
      cacheCleared := true }

/-- The fields the update form can rewrite. -/
structure UpdateFields where
  Food_Name : String
  Quantity : Int
  Expiry_Date : Option Date
  Food_Type : String
  Meal_Type : String
deriving DecidableEq, Repr

/-- The `update_food_listing_form` submit handler:
`UPDATE food_listings SET Food_Name, Quantity, Expiry_Date, Food_Type,
Meal_Type WHERE Food_ID = ?` — rows with the given id get the new
mutable fields, every other row and every other table is untouched. -/
def update_food_listing (db : Snapshot) (fid : Int) (u : UpdateFields) :
    Snapshot :=
  { db with
    food_listings := db.food_listings.map (fun r =>
      if r.Food_ID = fid then
        { r with
          Food_Name := u.Food_Name
          Quantity := u.Quantity
          Expiry_Date := u.Expiry_Date
          Food_Type := u.Food_Type
          Meal_Type := u.Meal_Type }
      else r) }

/-! ## Helper lemmas -/

lemma sum_map_add {α M : Type} [AddCommMonoid M] (l : List α) (f g : α → M) :
    (l.map (fun a => f a + g a)).sum = (l.map f).sum + (l.map g).sum := by
  induction l with
  | nil => simp
  | cons a l ih => simp [ih, add_assoc, add_left_comm]

lemma sum_map_mul_right {α R : Type} [NonUnitalNonAssocSemiring R]
    (l : List α) (f : α → R) (c : R) :
    (l.map (fun a => f a * c)).sum = (l.map f).sum * c := by
  induction l with
  | nil => simp
  | cons a l ih => simp [ih, add_mul]

lemma sum_map_one {α : Type} (l : List α) :
    (l.map (fun _ => (1 : ℚ))).sum = (l.length : ℚ) := by
  induction l with
  | nil => simp
  | cons a l ih => simp [ih]; ring

lemma sum_map_ite_of_not_mem {κ M : Type} [DecidableEq κ] [AddCommMonoid M]
    (ks : List κ) (k0 : κ) (v : M) (h : k0 ∉ ks) :
    (ks.map (fun k => if k0 = k then v else 0)).sum = 0 := by
  induction ks with
  | nil => simp
  | cons k ks ih =>
    simp only [List.mem_cons, not_or] at h
    simp [h.1, ih h.2]

lemma sum_map_ite_of_nodup {κ M : Type} [DecidableEq κ] [AddCommMonoid M]
    (ks : List κ) (k0 : κ) (v : M) (hnd : ks.Nodup) (hm : k0 ∈ ks) :
    (ks.map (fun k => if k0 = k then v else 0)).sum = v := by
  induction ks with
  | nil => cases hm
  | cons k ks ih =>
    rcases List.mem_cons.mp hm with h | h
    · subst h
      simp [sum_map_ite_of_not_mem ks k0 v (List.nodup_cons.mp hnd).1]
    · have hne : k0 ≠ k := by
        rintro rfl
        exact (List.nodup_cons.mp hnd).1 h
      simp [hne, ih (List.nodup_cons.mp hnd).2 h]

/-- Partitioning a sum: summing `val` over the fibers of `key`, one
fiber per key in a duplicate-free covering key list, equals summing
`val` over the whole list. -/
lemma sum_filter_partition {α κ M : Type} [DecidableEq κ] [AddCommMonoid M]
    (key : α → κ) (val : α → M) (rows : List α) :
    ∀ ks : List κ, ks.Nodup → (∀ r ∈ rows, key r ∈ ks) →
      (ks.map (fun k =>
        ((rows.filter (fun r => decide (key r = k))).map val).sum)).sum
        = (rows.map val).sum := by
  induction rows with
  | nil => intro ks _ _; simp
  | cons r rows ih =>
    intro ks hnd hcov
    have hstep : ∀ k ∈ ks,
        (((r :: rows).filter (fun x => decide (key x = k))).map val).sum
          = (if key r = k then val r else 0)
            + ((rows.filter (fun x => decide (key x = k))).map val).sum := by
      intro k _
      by_cases h : key r = k
      · simp [List.filter_cons, h]
      · simp [List.filter_cons, h]
    rw [List.map_congr_left hstep, sum_map_add,
      sum_map_ite_of_nodup ks (key r) (val r) hnd (hcov r (by simp)),
      ih ks hnd (fun x hx => hcov x (by simp [hx]))]
    simp

/-- Conservation for `groupbySum`: the per-group sums add up to the sum
of `val` over the whole table. -/
lemma groupbySum_conservation {α κ : Type} [DecidableEq κ]
    (key : α → κ) (val : α → Int) (rows : List α) :
    ((groupbySum key val rows).map Prod.snd).sum = (rows.map val).sum := by
  unfold groupbySum
  rw [List.map_map]
  exact sum_filter_partition key val rows (rows.map key).dedup
    (List.nodup_dedup _)
    (fun r hr => List.mem_dedup.mpr (List.mem_map_of_mem key hr))

/-- Membership in `valueCounts`: the entries are exactly the values of
the list, each paired with its occurrence count. -/
lemma valueCounts_mem {α : Type} [DecidableEq α] (l : List α)
    (pc : α × Nat) :
    pc ∈ valueCounts l
      ↔ pc.1 ∈ l ∧ pc.2 = (l.filter (fun x => decide (x = pc.1))).length := by
  unfold valueCounts
  constructor
  · intro h
    rcases List.mem_map.mp h with ⟨a, ha, hpc⟩
    rcases hpc
    exact ⟨List.mem_dedup.mp ha, rfl⟩
  · intro ⟨h1, h2⟩
    refine List.mem_map.mpr ⟨pc.1, List.mem_dedup.mpr h1, ?_⟩
    exact Prod.ext_iff.mpr ⟨rfl, h2.symm⟩

/-- Filtering a mapped list counts the preimages. -/
lemma length_filter_map {α β : Type} (f : α → β) (p : β → Bool)
    (l : List α) :
    ((l.map f).filter p).length = (l.filter (fun a => p (f a))).length := by
  induction l with
  | nil => rfl
  | cons a l ih => by_cases h : p (f a) <;> simp [List.filter_cons, h, ih]

/-- Replacing a filtered-then-mapped sum by a sum of guarded terms. -/
lemma sum_map_filter_ite {α : Type} (p : α → Bool) (val : α → Int)
    (l : List α) :
    ((l.filter p).map val).sum
      = (l.map (fun a => if p a then val a else 0)).sum := by
  induction l with
  | nil => rfl
  | cons a l ih => by_cases h : p a <;> simp [List.filter_cons, h, ih]

/-- One merge step of the section-20 total: prepending a claim adds the
quantities of all listings matching it. -/
lemma total_claimed_qty_cons (c : Claim) (claims : List Claim)
    (listings : List FoodListing) :
    total_claimed_qty (c :: claims) listings
      = ((listings.filter (fun l => decide (l.Food_ID = c.Food_ID))).map
          (fun l => l.Quantity)).sum
        + total_claimed_qty claims listings := by
  simp only [total_claimed_qty, claims_with_food_qty_for_total,
    List.flatMap_cons, List.map_append, List.sum_append, List.map_map]
  rfl

/-! ## Claim theorems -/

/-- C3: each grouped-sum report satisfies conservation — the per-group
sums of the direct group-by report (total quantity donated per provider,
section 13) add up to the Quantity total of its input table
`food_listings`, and the per-group sums of the join-then-aggregate
report (total quantity per provider type, section 2) add up to the
Quantity total of its input table, the listings-providers join. -/
theorem grouped_sum_conservation (listings : List FoodListing)
    (providers : List Provider) :
    ((provider_donated_qty_groups listings).map Prod.snd).sum
        = (listings.map (fun l => l.Quantity)).sum
    ∧ ((top_provider_types listings providers).map Prod.snd).sum
        = ((provider_type_contribution listings providers).map
            (fun r => r.1.Quantity)).sum :=
  ⟨groupbySum_conservation _ _ _, groupbySum_conservation _ _ _⟩

/-- C5: the insert form assigns `Food_ID` one greater than the current
maximum of `food_listings`, 1 when the table is empty, and in
particular 8 when the maximum existing id is 7. -/
theorem new_food_id_spec :
    new_food_id [] = 1
    ∧ (∀ (listings : List FoodListing) (m : Int),
        sqlMaxFoodID listings = some m → new_food_id listings = m + 1)
    ∧ new_food_id
        [⟨7, "Bread", 5, none, 1, "Bakery", "Chennai", "Vegan", "Lunch"⟩,
         ⟨3, "Rice", 2, none, 1, "Bakery", "Chennai", "Vegan", "Lunch"⟩] = 8 := by
  refine ⟨rfl, ?_, by decide⟩
  intro listings m h
  unfold new_food_id
  rw [h]
  unfold pyOrZero
  by_cases hm : m = 0
  · simp [hm]
  · simp [hm]

/-- Witness for C5: a table whose maximum `Food_ID` is 7 receives 8. -/
theorem new_food_id_spec_witness :
    new_food_id
      [⟨7, "Bread", 5, none, 1, "Bakery", "Chennai", "Vegan", "Lunch"⟩] = 7 + 1 :=
  new_food_id_spec.2.1
    [⟨7, "Bread", 5, none, 1, "Bakery", "Chennai", "Vegan", "Lunch"⟩] 7 (by decide)

/-- C4: the delete operation is refused — returning the dependent-claims
count, leaving `food_listings` unchanged and not touching the cache —
exactly when some claim references the target `Food_ID`; otherwise it
removes the rows with that id and invalidates the loader cache. -/
theorem delete_food_listing_spec (claims : List Claim)
    (listings : List FoodListing) (fid : Int) :
    ((∃ c ∈ claims, c.Food_ID = fid) →
      (delete_food_listing claims listings fid).food_listings = listings
      ∧ (delete_food_listing claims listings fid).rejected
          = some (claims_count_for claims fid)
      ∧ 0 < claims_count_for claims fid
      ∧ (delete_food_listing claims listings fid).cacheCleared = false)
    ∧ ((∀ c ∈ claims, c.Food_ID ≠ fid) →
      (delete_food_listing claims listings fid).rejected = none
      ∧ (delete_food_listing claims listings fid).cacheCleared = true
      ∧ ∀ l : FoodListing,
          l ∈ (delete_food_listing claims listings fid).food_listings
            ↔ l ∈ listings ∧ l.Food_ID ≠ fid) := by
  have hpos : (∃ c ∈ claims, c.Food_ID = fid)
      ↔ 0 < claims_count_for claims fid := by
    unfold claims_count_for
    rw [← List.countP_eq_length_filter, List.countP_pos_iff]
    simp
  constructor
  · intro hex
    have hc := hpos.mp hex
    unfold delete_food_listing
    rw [if_pos hc]
    exact ⟨rfl, rfl, hc, rfl⟩
  · intro hall
    have hc : ¬ 0 < claims_count_for claims fid := by
      intro hcp
      rcases hpos.mpr hcp with ⟨c, hcmem, hceq⟩
      exact hall c hcmem hceq
    unfold delete_food_listing
    rw [if_neg hc]
    refine ⟨rfl, rfl, fun l => ?_⟩
    simp [List.mem_filter]

/-- Witness for C4: a listing with one dependent claim is kept and the
rejection carries the count; a listing with no dependent claim is
deleted with the cache cleared. -/
theorem delete_food_listing_spec_witness :
    ((delete_food_listing [⟨.intVal 1, 4, 1, "Pending", none⟩]
        [⟨4, "Bread", 5, none, 1, "Bakery", "Chennai", "Vegan", "Lunch"⟩]
        4).food_listings
      = [⟨4, "Bread", 5, none, 1, "Bakery", "Chennai", "Vegan", "Lunch"⟩]
      ∧ (delete_food_listing [⟨.intVal 1, 4, 1, "Pending", none⟩]
          [⟨4, "Bread", 5, none, 1, "Bakery", "Chennai", "Vegan", "Lunch"⟩]
          4).rejected
        = some (claims_count_for [⟨.intVal 1, 4, 1, "Pending", none⟩] 4))
    ∧ (delete_food_listing [⟨.intVal 1, 4, 1, "Pending", none⟩]
        [⟨4, "Bread", 5, none, 1, "Bakery", "Chennai", "Vegan", "Lunch"⟩]
        9).cacheCleared = true :=
  ⟨⟨((delete_food_listing_spec
        [⟨.intVal 1, 4, 1, "Pending", none⟩]
        [⟨4, "Bread", 5, none, 1, "Bakery", "Chennai", "Vegan", "Lunch"⟩]
        4).1 (by decide)).1,
    ((delete_food_listing_spec
        [⟨.intVal 1, 4, 1, "Pending", none⟩]
        [⟨4, "Bread", 5, none, 1, "Bakery", "Chennai", "Vegan", "Lunch"⟩]
        4).1 (by decide)).2.1⟩,
    ((delete_food_listing_spec
        [⟨.intVal 1, 4, 1, "Pending", none⟩]
        [⟨4, "Bread", 5, none, 1, "Bakery", "Chennai", "Vegan", "Lunch"⟩]
        9).2 (by decide)).2.1⟩

/-- C2: on the empty snapshot every embedded report yields an empty
result set (or zero total), and the city-with-most-listings report has
no row 0 to return: its positional lookup is `none`.  In the source
that lookup is `.iloc[0]` on an empty frame, which raises an unhandled
IndexError rather than the well-defined no-data condition the claim
requires. -/
theorem empty_snapshot_reports :
    city_with_most_listings [] = none
    ∧ city_listings_count [] = []
    ∧ unique_providers_with_unclaimed [] [] [] = []
    ∧ top_provider_types [] [] = []
    ∧ provider_donated_qty_groups [] = []
    ∧ provider_donated_qty [] [] = []
    ∧ claim_status_percentage [] = []
    ∧ provider_listings_count [] = []
    ∧ highly_active_providers [] [] 5 = []
    ∧ total_listed_qty [] = 0
    ∧ total_claimed_qty [] [] = 0 := by
  refine ⟨?_, rfl, rfl, rfl, rfl, rfl, rfl, rfl, rfl, rfl, rfl⟩
  simp [city_with_most_listings, city_listings_count, valueCounts]

/-- C6: the loader is total — every stored row yields exactly one loaded
record; an identifier or quantity cell whose numeric coercion fails
loads as 0; a date or time cell whose parse fails loads as the null
marker; and the FoodListings scenario with Quantity cells 5 and abc
loads as quantities 5 and 0. -/
theorem load_coercion_spec :
    (∀ rows : List RawFoodRow, (load_food_listings rows).length = rows.length)
    ∧ (∀ rows : List RawClaimRow, (load_claims rows).length = rows.length)
    ∧ (∀ rows : List RawProviderRow, (load_providers rows).length = rows.length)
    ∧ (∀ rows : List RawReceiverRow, (load_receivers rows).length = rows.length)
    ∧ (∀ c : DBCell, toNumericCoerce c = none → coerceNum c = 0)
    ∧ (∀ r : RawFoodRow, parseDate r.Expiry_Date = none →
        (loadFoodRow r).Expiry_Date = none)
    ∧ (∀ r : RawClaimRow, parseDate r.Timestamp = none →
        (loadClaimRow r).Timestamp = none)
    ∧ (load_food_listings
        [⟨.intVal 1, "Bread", .strVal "5", "2025-01-01", .intVal 1,
          "Bakery", "Chennai", "Vegan", "Lunch"⟩,
         ⟨.intVal 2, "Rice", .strVal "abc", "2025-01-01", .intVal 1,
          "Bakery", "Chennai", "Vegan", "Lunch"⟩]).map
        (fun l => (l.Food_ID, l.Quantity)) = [(1, 5), (2, 0)] := by
  refine ⟨fun rows => List.length_map _ _, fun rows => List.length_map _ _,
    fun rows => List.length_map _ _, fun rows => List.length_map _ _,
    ?_, ?_, ?_, by decide⟩
  · intro c h
    unfold coerceNum
    rw [h]
    rfl
  · intro r h
    simp [loadFoodRow, h]
  · intro r h
    simp [loadClaimRow, h]

/-- Witness for C6: the cell abc fails coercion and loads as 0, and an
unparseable date cell loads as the null marker. -/
theorem load_coercion_spec_witness :
    coerceNum (.strVal "abc") = 0
    ∧ (loadFoodRow ⟨.intVal 1, "Bread", .strVal "5", "next week",
        .intVal 1, "Bakery", "Chennai", "Vegan", "Lunch"⟩).Expiry_Date = none :=
  ⟨load_coercion_spec.2.2.2.2.1 (.strVal "abc") (by decide),
   load_coercion_spec.2.2.2.2.2.1
     ⟨.intVal 1, "Bread", .strVal "5", "next week",
      .intVal 1, "Bakery", "Chennai", "Vegan", "Lunch"⟩ (by decide)⟩

/-- C7: for a non-empty claims table the per-status percentages of the
status report sum to exactly 100 (rationals standing in for floats), and
for an empty claims table the report is empty with no division raised. -/
theorem claim_status_percentage_sum (claims : List Claim) :
    (claims ≠ [] →
      ((claim_status_percentage claims).map Prod.snd).sum = 100)
    ∧ claim_status_percentage [] = ([] : List (String × ℚ)) := by
  refine ⟨?_, rfl⟩
  intro hne
  have hn : ((claims.length : ℚ)) ≠ 0 := by
    simpa using fun h => hne (List.length_eq_zero.mp h)
  unfold claim_status_percentage valueCounts
  rw [List.map_map, List.map_map]
  set sts := claims.map (fun c => c.Status) with hsts
  calc ((sts.dedup.map (Prod.snd ∘ (fun sc : String × Nat =>
          (sc.1, (sc.2 : ℚ) / (claims.length : ℚ) * 100))
            ∘ fun a => (a, (sts.filter (fun x => decide (x = a))).length))).sum)
      = (sts.dedup.map (fun a =>
          ((sts.filter (fun x => decide (x = a))).map
            (fun _ => (1 : ℚ))).sum * (100 / (claims.length : ℚ)))).sum := by
        refine congrArg List.sum (List.map_congr_left ?_)
        intro a _
        simp only [Function.comp]
        rw [sum_map_one]
        ring
    _ = (sts.dedup.map (fun a =>
          ((sts.filter (fun x => decide (x = a))).map
            (fun _ => (1 : ℚ))).sum)).sum * (100 / (claims.length : ℚ)) :=
        sum_map_mul_right _ _ _
    _ = ((sts.map (fun _ => (1 : ℚ))).sum) * (100 / (claims.length : ℚ)) := by
        rw [sum_filter_partition (fun s => s) (fun _ => (1 : ℚ)) sts sts.dedup
          (List.nodup_dedup _) (fun r hr => List.mem_dedup.mpr hr)]
    _ = ((claims.length : ℚ)) * (100 / (claims.length : ℚ)) := by
        rw [sum_map_one, hsts, List.length_map]
    _ = 100 := by
        rw [mul_comm]
        exact div_mul_cancel₀ 100 hn

/-- Witness for C7: a three-claim table with two distinct statuses has
percentages summing to 100. -/
theorem claim_status_percentage_sum_witness :
    ((claim_status_percentage
      [⟨.intVal 1, 1, 1, "Pending", none⟩,
       ⟨.intVal 2, 2, 1, "Completed", none⟩,
       ⟨.intVal 3, 3, 2, "Pending", none⟩]).map Prod.snd).sum = 100 :=
  (claim_status_percentage_sum
    [⟨.intVal 1, 1, 1, "Pending", none⟩,
     ⟨.intVal 2, 2, 1, "Completed", none⟩,
     ⟨.intVal 3, 3, 2, "Pending", none⟩]).1 (by decide)

/-- C9: the claimed-vs-listed report sums the matched listing's full
Quantity once per claim row — over a table with distinct listing rows, a
listing referenced by k claims contributes k times its Quantity — and on
the snapshot with one listing of quantity 5 referenced by two claims the
reported claimed total 10 strictly exceeds the listed total 5. -/
theorem total_claimed_qty_multiplicity :
    (∀ (claims : List Claim) (listings : List FoodListing),
      total_claimed_qty claims listings
        = (listings.map (fun l =>
            (claims_count_for claims l.Food_ID : Int) * l.Quantity)).sum)
    ∧ total_claimed_qty
        [⟨.intVal 1, 1, 1, "Pending", none⟩, ⟨.intVal 2, 1, 2, "Pending", none⟩]
        [⟨1, "Bread", 5, none, 1, "Bakery", "Chennai", "Vegan", "Lunch"⟩]
      > total_listed_qty
        [⟨1, "Bread", 5, none, 1, "Bakery", "Chennai", "Vegan", "Lunch"⟩] := by
  refine ⟨?_, by decide⟩
  intro claims listings
  induction claims with
  | nil =>
    simp [total_claimed_qty, claims_with_food_qty_for_total, claims_count_for]
  | cons c claims ih =>
    have hsplit : ∀ l ∈ listings,
        (claims_count_for (c :: claims) l.Food_ID : Int) * l.Quantity
          = (if decide (l.Food_ID = c.Food_ID) then l.Quantity else 0)
            + (claims_count_for claims l.Food_ID : Int) * l.Quantity := by
      intro l _
      unfold claims_count_for
      rw [List.filter_cons]
      by_cases h : c.Food_ID = l.Food_ID
      · rw [if_pos (decide_eq_true h), List.length_cons,
          if_pos (decide_eq_true h.symm)]
        push_cast
        ring
      · rw [if_neg (by simp only [decide_eq_true_eq]; exact h),
          if_neg (by simp only [decide_eq_true_eq]; exact fun hx => h hx.symm)]
        ring
    rw [total_claimed_qty_cons, ih, List.map_congr_left hsplit, sum_map_add,
      sum_map_filter_ite]

/-- C1 counterexample: with one provider owning listings 1 and 2 and a
single claim on listing 1, the report returns that provider even though
a claim exists against one of its listings — refuting that every
returned provider has zero claims against its listings. -/
theorem providers_no_claims_counterexample :
    (1, "Aunt Bakery", "Bakery", "Chennai")
        ∈ unique_providers_with_unclaimed
            [⟨1, "Bread", 5, none, 1, "Bakery", "Chennai", "Vegan", "Lunch"⟩,
             ⟨2, "Rice", 3, none, 1, "Bakery", "Chennai", "Vegan", "Lunch"⟩]
            [⟨.intVal 1, 1, 1, "Pending", none⟩]
            [⟨1, "Aunt Bakery", "Bakery", "12 Rd", "Chennai", "99"⟩]
    ∧ ∃ l ∈ ([⟨1, "Bread", 5, none, 1, "Bakery", "Chennai", "Vegan", "Lunch"⟩,
              ⟨2, "Rice", 3, none, 1, "Bakery", "Chennai", "Vegan", "Lunch"⟩] :
             List FoodListing),
        l.Provider_ID = 1
        ∧ ∃ c ∈ ([⟨.intVal 1, 1, 1, "Pending", none⟩] : List Claim),
            c.Food_ID = l.Food_ID := by
  decide

/-- C1 (amended): the providers-with-no-claims report returns exactly
the (Provider_ID, Name, Type, City) projections of providers having at
least one listing with no claim against it; a provider all of whose
listings are claimed, or with no listings, is excluded, but a provider
with both a claimed and an unclaimed listing is included. -/
theorem providers_no_claims_membership (listings : List FoodListing)
    (claims : List Claim) (providers : List Provider)
    (e : Int × String × String × String) :
    e ∈ unique_providers_with_unclaimed listings claims providers
      ↔ ∃ p ∈ providers, (p.Provider_ID, p.Name, p.type, p.City) = e
          ∧ ∃ l ∈ listings, l.Provider_ID = p.Provider_ID
              ∧ ∀ c ∈ claims, c.Food_ID ≠ l.Food_ID := by
  unfold unique_providers_with_unclaimed providers_with_unclaimed_food
    unclaimed_listings claimed_food_ids
  rw [List.mem_dedup, List.mem_flatMap]
  constructor
  · rintro ⟨l, hlmem, hin⟩
    rw [List.mem_filter] at hlmem
    obtain ⟨hl, hdec⟩ := hlmem
    rw [decide_eq_true_eq] at hdec
    rcases List.mem_map.mp hin with ⟨p, hpmem, hpe⟩
    rw [List.mem_filter] at hpmem
    obtain ⟨hp, hpdec⟩ := hpmem
    rw [decide_eq_true_eq] at hpdec
    refine ⟨p, hp, hpe, l, hl, hpdec.symm, ?_⟩
    intro c hc hceq
    exact hdec (List.mem_dedup.mpr (List.mem_map.mpr ⟨c, hc, hceq⟩))
  · rintro ⟨p, hp, hpe, l, hl, hpid, hnone⟩
    refine ⟨l, ?_, ?_⟩
    · rw [List.mem_filter]
      refine ⟨hl, ?_⟩
      rw [decide_eq_true_eq]
      intro hmem
      rcases List.mem_map.mp (List.mem_dedup.mp hmem) with ⟨c, hc, hceq⟩
      exact hnone c hc hceq
    · exact List.mem_map.mpr
        ⟨p, List.mem_filter.mpr ⟨hp, decide_eq_true hpid.symm⟩, hpe⟩

/-- C10: for any threshold K in the widget's range (K >= 1), the
highly-active-providers report includes a provider exactly when its
listing count is greater than or equal to K — the source filter is
inclusive despite the section's `More than X` title — and every count
the report shows is the provider's true listing count. -/
theorem highly_active_providers_inclusive (listings : List FoodListing)
    (providers : List Provider) (K : Nat) (p : Provider) (hK : 1 ≤ K) :
    ((p, num_listings_of listings p.Provider_ID)
        ∈ highly_active_providers listings providers K
      ↔ p ∈ providers ∧ K ≤ num_listings_of listings p.Provider_ID)
    ∧ ∀ n : Nat, (p, n) ∈ highly_active_providers listings providers K →
        n = num_listings_of listings p.Provider_ID := by
  have hlen : ((listings.map (fun l => l.Provider_ID)).filter
      (fun x => decide (x = p.Provider_ID))).length
      = num_listings_of listings p.Provider_ID :=
    length_filter_map (fun l => l.Provider_ID)
      (fun x => decide (x = p.Provider_ID)) listings
  have hmem : ∀ n : Nat,
      (p, n) ∈ highly_active_providers listings providers K
        ↔ p ∈ providers ∧ K ≤ n
            ∧ n = num_listings_of listings p.Provider_ID := by
    intro n
    unfold highly_active_providers provider_listings_count
    rw [List.mem_flatMap]
    constructor
    · rintro ⟨pc, hpcmem, hin⟩
      rw [List.mem_filter] at hpcmem
      obtain ⟨hvc, hKle⟩ := hpcmem
      rw [decide_eq_true_eq] at hKle
      rcases List.mem_map.mp hin with ⟨q, hqmem, hqe⟩
      rw [List.mem_filter] at hqmem
      obtain ⟨hq, hqdec⟩ := hqmem
      rw [decide_eq_true_eq] at hqdec
      have hqp : q = p := congrArg Prod.fst hqe
      have hpcn : pc.2 = n := congrArg Prod.snd hqe
      subst hqp
      rcases (valueCounts_mem _ _).mp hvc with ⟨hidmem, hcount⟩
      refine ⟨hq, hpcn ▸ hKle, ?_⟩
      rw [← hpcn, hcount, ← hqdec]
      exact hlen
    · rintro ⟨hp, hKn, hn⟩
      have hpos : 0 < num_listings_of listings p.Provider_ID :=
        hn ▸ Nat.lt_of_lt_of_le hK hKn
      obtain ⟨l, hlmem⟩ := List.exists_mem_of_length_pos hpos
      rw [List.mem_filter] at hlmem
      refine ⟨(p.Provider_ID, n), ?_, ?_⟩
      · rw [List.mem_filter]
        refine ⟨(valueCounts_mem _ _).mpr ⟨?_, ?_⟩, decide_eq_true hKn⟩
        · exact List.mem_map.mpr
            ⟨l, hlmem.1, decide_eq_true_eq.mp hlmem.2⟩
        · rw [hlen]
          exact hn
      · exact List.mem_map.mpr
          ⟨p, List.mem_filter.mpr ⟨hp, decide_eq_true rfl⟩, rfl⟩
  refine ⟨?_, fun n hin => ((hmem n).mp hin).2.2⟩
  constructor
  · intro hin
    obtain ⟨hp, hKle, _⟩ := (hmem _).mp hin
    exact ⟨hp, hKle⟩
  · intro ⟨hp, hKle⟩
    exact (hmem _).mpr ⟨hp, hKle, rfl⟩

/-- Witness for C10: with threshold K = 2, a provider with exactly 2
listings is included in the report. -/
theorem highly_active_providers_inclusive_witness :
    (⟨1, "Aunt Bakery", "Bakery", "12 Rd", "Chennai", "99"⟩,
      num_listings_of
        [⟨1, "Bread", 5, none, 1, "Bakery", "Chennai", "Vegan", "Lunch"⟩,
         ⟨2, "Rice", 3, none, 1, "Bakery", "Chennai", "Vegan", "Lunch"⟩]
        (Provider.Provider_ID ⟨1, "Aunt Bakery", "Bakery", "12 Rd", "Chennai", "99"⟩))
      ∈ highly_active_providers
        [⟨1, "Bread", 5, none, 1, "Bakery", "Chennai", "Vegan", "Lunch"⟩,
         ⟨2, "Rice", 3, none, 1, "Bakery", "Chennai", "Vegan", "Lunch"⟩]
        [⟨1, "Aunt Bakery", "Bakery", "12 Rd", "Chennai", "99"⟩] 2 :=
  (highly_active_providers_inclusive
    [⟨1, "Bread", 5, none, 1, "Bakery", "Chennai", "Vegan", "Lunch"⟩,
     ⟨2, "Rice", 3, none, 1, "Bakery", "Chennai", "Vegan", "Lunch"⟩]
    [⟨1, "Aunt Bakery", "Bakery", "12 Rd", "Chennai", "99"⟩] 2
    ⟨1, "Aunt Bakery", "Bakery", "12 Rd", "Chennai", "99"⟩
    (by decide)).1.mpr ⟨by decide, by decide⟩

/-- Concrete snapshot used to witness the update-frame theorem. -/
def exampleDB : Snapshot :=
  { food_listings :=
      [⟨1, "Bread", 5, none, 2, "Bakery", "Chennai", "Vegan", "Lunch"⟩,
       ⟨3, "Rice", 2, none, 4, "Shop", "Delhi", "Vegan", "Dinner"⟩]
    providers := []
    receivers := []
    claims := [⟨.intVal 1, 1, 1, "Pending", none⟩] }

/-- Concrete update payload used to witness the update-frame theorem. -/
def exampleUpd : UpdateFields :=
  ⟨"Buns", 9, some (2025, 2, 3), "Vegetarian", "Snacks"⟩

/-- C8: the update operation touches only the five mutable fields of the
rows carrying the target `Food_ID`: the key, `Provider_ID`,
`Provider_Type` and `Location` of the updated row are preserved, rows
with a different `Food_ID` are returned verbatim in place, and the
providers, receivers and claims tables are untouched. -/
theorem update_food_listing_frame (db : Snapshot) (fid : Int)
    (u : UpdateFields) :
    (update_food_listing db fid u).providers = db.providers
    ∧ (update_food_listing db fid u).receivers = db.receivers
    ∧ (update_food_listing db fid u).claims = db.claims
    ∧ (update_food_listing db fid u).food_listings.length
        = db.food_listings.length
    ∧ ∀ (i : Nat) (hi : i < db.food_listings.length)
        (hi2 : i < (update_food_listing db fid u).food_listings.length),
        (((update_food_listing db fid u).food_listings.get ⟨i, hi2⟩).Food_ID
            = (db.food_listings.get ⟨i, hi⟩).Food_ID
          ∧ ((update_food_listing db fid u).food_listings.get
              ⟨i, hi2⟩).Provider_ID
            = (db.food_listings.get ⟨i, hi⟩).Provider_ID
          ∧ ((update_food_listing db fid u).food_listings.get
              ⟨i, hi2⟩).Provider_Type
            = (db.food_listings.get ⟨i, hi⟩).Provider_Type
          ∧ ((update_food_listing db fid u).food_listings.get
              ⟨i, hi2⟩).Location
            = (db.food_listings.get ⟨i, hi⟩).Location)
        ∧ ((db.food_listings.get ⟨i, hi⟩).Food_ID ≠ fid →
            (update_food_listing db fid u).food_listings.get ⟨i, hi2⟩
              = db.food_listings.get ⟨i, hi⟩)
        ∧ ((db.food_listings.get ⟨i, hi⟩).Food_ID = fid →
            ((update_food_listing db fid u).food_listings.get
                ⟨i, hi2⟩).Food_Name = u.Food_Name
            ∧ ((update_food_listing db fid u).food_listings.get
                ⟨i, hi2⟩).Quantity = u.Quantity
            ∧ ((update_food_listing db fid u).food_listings.get
                ⟨i, hi2⟩).Expiry_Date = u.Expiry_Date
            ∧ ((update_food_listing db fid u).food_listings.get
                ⟨i, hi2⟩).Food_Type = u.Food_Type
            ∧ ((update_food_listing db fid u).food_listings.get
                ⟨i, hi2⟩).Meal_Type = u.Meal_Type) := by
  refine ⟨rfl, rfl, rfl, List.length_map _ _, ?_⟩
  intro i hi hi2
  have hget : (update_food_listing db fid u).food_listings.get ⟨i, hi2⟩
      = (fun r : FoodListing =>
          if r.Food_ID = fid then
            { r with
              Food_Name := u.Food_Name
              Quantity := u.Quantity
              Expiry_Date := u.Expiry_Date
              Food_Type := u.Food_Type
              Meal_Type := u.Meal_Type }
          else r) (db.food_listings.get ⟨i, hi⟩) := by
    simp [update_food_listing, List.get_eq_getElem, List.getElem_map]
  rw [hget]
  set r := db.food_listings.get ⟨i, hi⟩ with hr
  by_cases h : r.Food_ID = fid
  · simp [h]
  · simp [h]

/-- Witness for C8: on a concrete snapshot, updating listing 1 keeps its
provider association and applies the new quantity. -/
theorem update_food_listing_frame_witness :
    ((update_food_listing exampleDB 1 exampleUpd).food_listings.get
        ⟨0, by decide⟩).Provider_ID
      = (exampleDB.food_listings.get ⟨0, by decide⟩).Provider_ID
    ∧ ((update_food_listing exampleDB 1 exampleUpd).food_listings.get
        ⟨0, by decide⟩).Quantity = exampleUpd.Quantity :=
  ⟨((update_food_listing_frame exampleDB 1 exampleUpd).2.2.2.2 0
      (by decide) (by decide)).1.2.1,
   (((update_food_listing_frame exampleDB 1 exampleUpd).2.2.2.2 0
      (by decide) (by decide)).2.2 (by decide)).2.1⟩

end FoodWastage
